import Mathlib

/-!
Verification development for the screen-capture plugin
(src/extensions/screen-capture).  The TypeScript sources are shallowly
embedded: pure string processing is translated directly, and each tool
invocation (execute function) is modelled as a pure function from the
request parameters, the static plugin configuration and an oracle
describing the outcomes of the external effects (file writes, subprocess
runs, media-store saves) to the structured result together with a trace
of temp-file allocations and deletion attempts.
-/

namespace ScreenCapture

/-- Splits a character list at every occurrence of the separator, keeping
empty segments, matching the JavaScript String.split behaviour for a
one-character separator. -/
def splitOnChar (sep : Char) : List Char → List (List Char)
  | [] => [[]]
  | c :: cs =>
    if c = sep then [] :: splitOnChar sep cs
    else
      match splitOnChar sep cs with
      | [] => [[c]]
      | h :: t => (c :: h) :: t

/-- JavaScript String.prototype.trim: drops leading and trailing whitespace. -/
def jsTrim (s : String) : String :=
  String.mk (((s.data.dropWhile (fun c => c.isWhitespace)).reverse.dropWhile
    (fun c => c.isWhitespace)).reverse)

/-- JavaScript String.prototype.split with a one-character separator. -/
def jsSplit (sep : Char) (s : String) : List String :=
  (splitOnChar sep s.data).map (fun cs => String.mk cs)

/-- Parses a leading run of decimal digits; none when there is no digit,
mirroring the NaN outcome of JavaScript parseInt. -/
def parseDigits (cs : List Char) : Option Nat :=
  let ds := cs.takeWhile (fun c => c.isDigit)
  if ds.isEmpty then none
  else some (ds.foldl (fun a c => a * 10 + (c.toNat - 48)) 0)

/-- JavaScript parseInt with radix 10: skip leading whitespace, optional
sign, then the longest digit prefix; none models NaN. -/
def jsParseInt (s : String) : Option Int :=
  match (jsTrim s).data with
  | '-' :: rest => (parseDigits rest).map (fun n => -(n : Int))
  | '+' :: rest => (parseDigits rest).map (fun n => (n : Int))
  | cs => (parseDigits cs).map (fun n => (n : Int))

/-- JavaScript Math.round, which returns the floor of the input plus one
half (rounding half up, also on negative inputs).  Written on numerator
and denominator so that concrete inputs evaluate inside the kernel; the
theorem jsRound_eq_round below identifies it with the Mathlib rounding
function, whose defining equation is the floor of the input plus one
half. -/
def jsRound (q : ℚ) : ℤ := Rat.floor (mkRat (2 * q.num + q.den) (2 * q.den))

/-- Value of a tool parameter as received from the host: either a
JavaScript number or some non-number value (the typeof checks in the
source only distinguish these two cases). -/
inductive JsVal where
  | num (q : ℚ)
  | other
deriving DecidableEq, Repr

/-- Plugin configuration (src/extensions/screen-capture/src/config.ts,
ScreenCaptureConfig): every field optional. -/
structure Config where
  ffmpegPath : Option String
  defaultMonitor : Option ℚ
  screenshotFormat : Option String
  maxVideoDuration : Option ℚ
deriving DecidableEq, Repr

/-- Monitor descriptor produced by list_monitors
(src/extensions/screen-capture/index.ts, lines 174-185).  Numeric fields
are Option Int because parseInt can produce NaN; name is Option String
because a missing field is undefined in the source. -/
structure MonitorRecord where
  index : Option Int
  name : Option String
  width : Option Int
  height : Option Int
  x : Option Int
  y : Option Int
  primary : Bool
deriving DecidableEq, Repr

/-- Bounds record used by record_screen
(src/extensions/screen-capture/src/video-tool.ts, MonitorBounds). -/
structure MonitorBounds where
  x : Option Int
  y : Option Int
  width : Option Int
  height : Option Int
deriving DecidableEq, Repr

/-- Line splitting shared by the enumeration parsers: trim the whole
output, split on newlines, drop empty lines
(output.trim().split and filter(Boolean) in both index.ts line 170-173
and video-tool.ts line 60). -/
def monitorLines (output : String) : List String :=
  (jsSplit '\n' (jsTrim output)).filter (fun l => decide (l ≠ ""))

/-- Index parsed from the first pipe-separated field of a record line,
as both parsers do with parseInt on the destructured first element. -/
def firstField (line : String) : Option Int :=
  ((jsSplit '|' (jsTrim line)).get? 0).bind jsParseInt

/-- Parses one enumeration record line into a monitor descriptor
(index.ts lines 174-185). -/
def parseMonitorLine (line : String) : MonitorRecord :=
  let parts := jsSplit '|' (jsTrim line)
  { index := (parts.get? 0).bind jsParseInt
  , name := (parts.get? 1).map jsTrim
  , width := (parts.get? 2).bind jsParseInt
  , height := (parts.get? 3).bind jsParseInt
  , x := (parts.get? 4).bind jsParseInt
  , y := (parts.get? 5).bind jsParseInt
  , primary := decide (parts.get? 6 = some "PRIMARY") }

/-- Parses a whole enumeration output into the monitors list
(index.ts lines 170-185). -/
def parseMonitors (output : String) : List MonitorRecord :=
  (monitorLines output).map parseMonitorLine

/-- Bounds extracted from one record line of the bounds-enumeration
output (video-tool.ts lines 62-69 and 75-81: positions 1 to 4 of the
pipe-separated fields). -/
def boundsFromLine (line : String) : MonitorBounds :=
  let parts := jsSplit '|' (jsTrim line)
  { x := (parts.get? 1).bind jsParseInt
  , y := (parts.get? 2).bind jsParseInt
  , width := (parts.get? 3).bind jsParseInt
  , height := (parts.get? 4).bind jsParseInt }

/-- Matching test of the getMonitorBounds loop (video-tool.ts line 63):
parseInt of the first field strictly equals the requested index; a NaN
index never matches. -/
def boundsIndexMatches (monitorIndex : ℚ) (line : String) : Bool :=
  match firstField line with
  | some v => decide ((v : ℚ) = monitorIndex)
  | none => false

/-- Pure part of getMonitorBounds (video-tool.ts lines 60-84): first
record whose echoed index matches wins; otherwise the first record is
the fallback; none when there is no record at all. -/
def getMonitorBoundsPure (monitorIndex : ℚ) (output : String) : Option MonitorBounds :=
  let lines := monitorLines output
  match lines.find? (boundsIndexMatches monitorIndex) with
  | some l => some (boundsFromLine l)
  | none =>
    match lines with
    | [] => none
    | l0 :: _ => some (boundsFromLine l0)

/-- Parameters of take_screenshot as the execute function receives them. -/
structure ScreenshotParams where
  delay : Option JsVal
  monitor : Option JsVal
deriving DecidableEq, Repr

/-- Parameters of record_screen as the execute function receives them. -/
structure RecordParams where
  duration : Option JsVal
  monitor : Option JsVal
  fps : Option JsVal
deriving DecidableEq, Repr

/-- Effective delay of take_screenshot (index.ts line 229): a numeric
delay is clamped to the interval from 0 to 10, anything else is 0. -/
def resolveDelay (v : Option JsVal) : ℚ :=
  match v with
  | some (.num d) => min (max d 0) 10
  | _ => 0

/-- Effective monitor index of take_screenshot (index.ts lines 230-231):
the caller value when numeric, else the configured default, else 0. -/
def resolveMonitor (v : Option JsVal) (cfg : Config) : ℚ :=
  match v with
  | some (.num m) => m
  | _ => cfg.defaultMonitor.getD 0

/-- Effective screenshot format (index.ts line 232). -/
def resolveFormat (cfg : Config) : String :=
  cfg.screenshotFormat.getD "png"

/-- Effective duration of record_screen (video-tool.ts lines 204-207):
a numeric duration is rounded and clamped between 1 and the configured
maximum; anything else resolves to none and is rejected. -/
def resolveDuration (v : Option JsVal) (maxDuration : ℚ) : Option ℚ :=
  match v with
  | some (.num d) => some (min (max ((jsRound d : ℤ) : ℚ) 1) maxDuration)
  | _ => none

/-- Effective fps of record_screen (video-tool.ts lines 218-219):
a numeric fps is rounded and clamped between 10 and 60, anything else
defaults to 30. -/
def resolveFps (v : Option JsVal) : ℚ :=
  match v with
  | some (.num f) => min (max ((jsRound f : ℤ) : ℚ) 10) 60
  | _ => 30

/-- Requested monitor of record_screen (video-tool.ts lines 216-217):
kept only when numeric, otherwise undefined. -/
def resolveMonitorIndex (v : Option JsVal) : Option ℚ :=
  match v with
  | some (.num m) => some m
  | _ => none

/-- True exactly when the received parameter value is a JavaScript
number (the typeof test used throughout both tools). -/
def isNumParam (v : Option JsVal) : Bool :=
  match v with
  | some (.num _) => true
  | _ => false

/-- Oracle for one invocation of getMonitorBounds (video-tool.ts lines
44-93): the fresh temp script path and the outcomes of the script write,
the enumeration subprocess, and the success-path unlinkSync call. -/
structure BoundsOracle where
  scriptPath : String
  writeOk : Bool
  execOk : Bool
  output : String
  unlinkOk : Bool
deriving DecidableEq, Repr

/-- Observable outcome of one getMonitorBounds invocation: its return
value and every deletion attempt on the temp script, in order. -/
structure BoundsRun where
  result : Option MonitorBounds
  unlinkAttempts : List String
deriving DecidableEq, Repr

/-- Shallow embedding of getMonitorBounds (video-tool.ts lines 44-93).
The script write and the subprocess run may throw, landing in the catch
block which retries the deletion; on the success path unlinkSync runs
inside the try block, so a failing deletion also lands in the catch
block and yields null even though enumeration succeeded. -/
def getMonitorBoundsRun (monitorIndex : ℚ) (o : BoundsOracle) : BoundsRun :=
  if o.writeOk then
    if o.execOk then
      if o.unlinkOk then
        { result := getMonitorBoundsPure monitorIndex o.output
        , unlinkAttempts := [o.scriptPath] }
      else
        { result := none, unlinkAttempts := [o.scriptPath, o.scriptPath] }
    else { result := none, unlinkAttempts := [o.scriptPath] }
  else { result := none, unlinkAttempts := [o.scriptPath] }

/-- Oracle for one invocation of list_monitors (index.ts lines 146-201). -/
structure ListMonOracle where
  scriptPath : String
  writeOk : Bool
  writeErr : String
  execOk : Bool
  output : String
  execErr : String
deriving DecidableEq, Repr

/-- Result payload of list_monitors: the monitors list with its count,
or the structured failure payload. -/
inductive ListMonitorsResult where
  | ok (monitors : List MonitorRecord) (count : Nat)
  | err (details : String)
deriving DecidableEq, Repr

/-- Observable outcome of one list_monitors invocation. -/
structure ListMonRun where
  result : ListMonitorsResult
  unlinkAttempts : List String
deriving DecidableEq, Repr

/-- Shallow embedding of the list_monitors execute function (index.ts
lines 154-199): write the script, run it, delete the script, parse the
output; any throw lands in the catch block, which deletes the script and
returns the failure payload. -/
def listMonitorsExecute (o : ListMonOracle) : ListMonRun :=
  if o.writeOk then
    if o.execOk then
      let ms := parseMonitors o.output
      { result := .ok ms ms.length, unlinkAttempts := [o.scriptPath] }
    else { result := .err o.execErr, unlinkAttempts := [o.scriptPath] }
  else { result := .err o.writeErr, unlinkAttempts := [o.scriptPath] }

/-- Oracle for one invocation of take_screenshot (index.ts lines
228-293): the two fresh temp paths and the outcomes of the script write,
the capture subprocess, the temp-file read, the media-store save, and
the final image-result construction. -/
structure ScreenshotOracle where
  outputPath : String
  scriptPath : String
  writeOk : Bool
  writeErr : String
  execOk : Bool
  execErr : String
  readOk : Bool
  readErr : String
  saveOk : Bool
  saveErr : String
  savedPath : String
  imageOk : Bool
  imageErr : String
deriving DecidableEq, Repr

/-- Result of take_screenshot: the image result carrying the saved media
path (as the path field and again inside the details), or the structured
failure payload with the platform string. -/
inductive ScreenshotResult where
  | image (path : String) (monitor : ℚ) (format : String) (delay : ℚ) (savedPath : String)
  | err (error : String) (details : String) (platform : String)
deriving DecidableEq, Repr

/-- Path field of a take_screenshot image result, none on failure. -/
def ScreenshotResult.imagePath : ScreenshotResult → Option String
  | .image path _ _ _ _ => some path
  | .err _ _ _ => none

/-- Monitor field of a take_screenshot image result, none on failure. -/
def ScreenshotResult.imageMonitor : ScreenshotResult → Option ℚ
  | .image _ monitor _ _ _ => some monitor
  | .err _ _ _ => none

/-- Observable outcome of one take_screenshot invocation. -/
structure ScreenshotRun where
  result : ScreenshotResult
  unlinkAttempts : List String
deriving DecidableEq, Repr

/-- Shallow embedding of the take_screenshot execute function (index.ts
lines 228-293).  The success path deletes both temp files and then
builds the image result; if that construction throws, the catch block
deletes both temp files a second time.  Every failure path deletes both
temp files once and returns the structured failure payload. -/
def screenshotExecute (cfg : Config) (p : ScreenshotParams) (platform : String)
    (o : ScreenshotOracle) : ScreenshotRun :=
  let delay := resolveDelay p.delay
  let monitor := resolveMonitor p.monitor cfg
  let format := resolveFormat cfg
  if o.writeOk then
    if o.execOk then
      if o.readOk then
        if o.saveOk then
          if o.imageOk then
            { result := .image o.savedPath monitor format delay o.savedPath
            , unlinkAttempts := [o.outputPath, o.scriptPath] }
          else
            { result := .err "Screenshot capture failed" o.imageErr platform
            , unlinkAttempts := [o.outputPath, o.scriptPath, o.outputPath, o.scriptPath] }
        else
          { result := .err "Screenshot capture failed" o.saveErr platform
          , unlinkAttempts := [o.outputPath, o.scriptPath] }
      else
        { result := .err "Screenshot capture failed" o.readErr platform
        , unlinkAttempts := [o.outputPath, o.scriptPath] }
    else
      { result := .err "Screenshot capture failed" o.execErr platform
      , unlinkAttempts := [o.outputPath, o.scriptPath] }
  else
    { result := .err "Screenshot capture failed" o.writeErr platform
    , unlinkAttempts := [o.outputPath, o.scriptPath] }

/-- Fixed list of well-known Windows install locations probed by
findFfmpeg (video-tool.ts lines 149-155), the last two under the home
directory. -/
def commonPaths (homedir : String) : List String :=
  [ "C:\\ffmpeg\\bin\\ffmpeg.exe"
  , "C:\\Program Files\\ffmpeg\\bin\\ffmpeg.exe"
  , "C:\\Program Files (x86)\\ffmpeg\\bin\\ffmpeg.exe"
  , homedir ++ "\\ffmpeg\\bin\\ffmpeg.exe"
  , homedir ++ "\\scoop\\shims\\ffmpeg.exe" ]

/-- Oracle for one findFfmpeg invocation (video-tool.ts lines 121-169):
the exit status reported by the version probe of each candidate, where
none models a spawn failure or a null status, and each entry of
commonStatus belongs positionally to the same entry of commonPaths. -/
structure ProbeOracle where
  homedir : String
  configStatus : Option Int
  pathStatus : Option Int
  commonStatus : List (Option Int)
deriving DecidableEq, Repr

/-- Probe loop over the well-known locations (video-tool.ts lines
157-166): the first path whose version probe exits with status 0 wins. -/
def findFfmpegCommon (cands : List (String × Option Int)) : Option String :=
  match cands with
  | [] => none
  | c :: rest => if c.2 = some 0 then some c.1 else findFfmpegCommon rest

/-- Probe statuses paired positionally with the well-known locations. -/
def commonCandidates (o : ProbeOracle) : List (String × Option Int) :=
  (commonPaths o.homedir).enum.map (fun ip => (ip.2, (o.commonStatus.get? ip.1).getD none))

/-- Stages two and three of findFfmpeg: the bare binary name through the
executable search path (video-tool.ts lines 135-146), then the
well-known locations. -/
def findFfmpegTail (o : ProbeOracle) : Option String :=
  if o.pathStatus = some 0 then some "ffmpeg"
  else findFfmpegCommon (commonCandidates o)

/-- Shallow embedding of findFfmpeg (video-tool.ts lines 121-169): the
configured path is probed first when present and nonempty (the
JavaScript truthiness test skips an empty string), then the search path,
then the well-known locations. -/
def findFfmpeg (configPath : Option String) (o : ProbeOracle) : Option String :=
  match configPath with
  | some p => if p ≠ "" ∧ o.configStatus = some 0 then some p else findFfmpegTail o
  | none => findFfmpegTail o

/-- Candidate list of findFfmpeg in probe priority order, each paired
with its probe status. -/
def ffmpegCandidates (configPath : Option String) (o : ProbeOracle) :
    List (String × Option Int) :=
  (match configPath with
   | some p => if p = "" then [] else [(p, o.configStatus)]
   | none => []) ++ ("ffmpeg", o.pathStatus) :: commonCandidates o

/-- Installation hint returned with the FFmpeg-not-found failure
(video-tool.ts line 226). -/
def ffmpegHint : String :=
  "Install FFmpeg: winget install ffmpeg, or download from ffmpeg.org and add to PATH, or set ffmpegPath in plugin config"

/-- Hint returned with the bounds failure (video-tool.ts line 237). -/
def boundsHint : String := "Use list_monitors to see available monitors"

/-- Hint returned with the duration validation failure (video-tool.ts
line 212). -/
def durationHint (maxDuration : ℚ) : String :=
  "Specify duration in seconds (1-" ++ toString maxDuration ++ ")"

/-- Hint returned with the recording failure (video-tool.ts line 335). -/
def recordHint : String :=
  "Ensure FFmpeg is installed and accessible. Try: winget install ffmpeg"

/-- Oracle for one record_screen invocation (video-tool.ts lines
202-338): the probe outcomes, the nested bounds-lookup oracle, the fresh
temp output path, the discarded exit status of the capture subprocess,
the stat outcome of the output file (none when stat throws because no
file exists, otherwise the byte size), and the outcomes of the
temp-file read and the media-store save. -/
structure RecordOracle where
  probes : ProbeOracle
  bounds : BoundsOracle
  outputPath : String
  capExitStatus : Option Int
  statResult : Option Nat
  readOk : Bool
  readErr : String
  saveOk : Bool
  saveErr : String
  savedPath : String
  savedSize : Nat
  savedContentType : String
deriving DecidableEq, Repr

/-- Result payload of record_screen (video-tool.ts lines 316-326 for
success, the jsonResult error payloads otherwise). -/
inductive RecordResult where
  | ok (path : String) (size : Nat) (contentType : String) (duration : ℚ) (fps : ℚ)
      (monitor : Option ℚ) (monitorBounds : Option MonitorBounds)
  | err (error : String) (details : Option String) (hint : Option String)
deriving DecidableEq, Repr

/-- True exactly on a success payload. -/
def RecordResult.isOk : RecordResult → Bool
  | .ok _ _ _ _ _ _ _ => true
  | .err _ _ _ => false

/-- Path field of a success payload, none on failure. -/
def RecordResult.okPath : RecordResult → Option String
  | .ok path _ _ _ _ _ _ => some path
  | .err _ _ _ => none

/-- Error field of a failure payload, none on success. -/
def RecordResult.errorName : RecordResult → Option String
  | .ok _ _ _ _ _ _ _ => none
  | .err e _ _ => some e

/-- Observable outcome of one record_screen invocation: the payload, the
temp artifacts the invocation itself allocated, every deletion attempt
on them, whether the bounds lookup ran together with its own deletion
attempts, and whether the capture subprocess was started. -/
structure RecordRun where
  result : RecordResult
  allocatedTemps : List String
  unlinkAttempts : List String
  boundsLookedUp : Bool
  boundsAttempts : List String
  ranCapture : Bool
deriving DecidableEq, Repr

/-- Early-return payload of record_screen before any temp allocation. -/
def recordEarlyRun (r : RecordResult) (blu : Bool) (battempts : List String) : RecordRun :=
  { result := r, allocatedTemps := [], unlinkAttempts := [], boundsLookedUp := blu
  , boundsAttempts := battempts, ranCapture := false }

/-- Catch-block payload of record_screen after the capture ran
(video-tool.ts lines 327-337): one deletion attempt on the temp output
and the structured failure with the thrown message as details. -/
def recordFailRun (o : RecordOracle) (blu : Bool) (battempts : List String)
    (msg : String) : RecordRun :=
  { result := .err "Screen recording failed" (some msg) (some recordHint)
  , allocatedTemps := [o.outputPath], unlinkAttempts := [o.outputPath]
  , boundsLookedUp := blu, boundsAttempts := battempts, ranCapture := true }

/-- Capture phase of record_screen (video-tool.ts lines 242-326): the
temp output path is allocated, the capture subprocess runs with its exit
status discarded, then the output file is verified by stat (missing file
and empty file raise the two distinct messages), read, and saved; the
success path deletes the temp output and returns the payload built from
the media-store reference and the echoed parameters. -/
def recordCapture (o : RecordOracle) (duration fps : ℚ) (monitorIndex : Option ℚ)
    (mBounds : Option MonitorBounds) (blu : Bool) (battempts : List String) : RecordRun :=
  match o.statResult with
  | none => recordFailRun o blu battempts "Recording failed - no output file created"
  | some size =>
    if size = 0 then recordFailRun o blu battempts "Recording produced empty file"
    else if o.readOk then
      if o.saveOk then
        { result := .ok o.savedPath o.savedSize o.savedContentType duration fps
            monitorIndex mBounds
        , allocatedTemps := [o.outputPath], unlinkAttempts := [o.outputPath]
        , boundsLookedUp := blu, boundsAttempts := battempts, ranCapture := true }
      else recordFailRun o blu battempts o.saveErr
    else recordFailRun o blu battempts o.readErr

/-- Shallow embedding of the record_screen execute function
(video-tool.ts lines 202-338): validate the duration, resolve the
capture binary, resolve bounds when a monitor was requested (a null
bounds result is a hard error), then run the capture phase. -/
def recordExecute (cfg : Config) (p : RecordParams) (o : RecordOracle) : RecordRun :=
  match resolveDuration p.duration (cfg.maxVideoDuration.getD 60) with
  | none =>
    recordEarlyRun
      (.err "duration is required" none (some (durationHint (cfg.maxVideoDuration.getD 60))))
      false []
  | some duration =>
    match findFfmpeg cfg.ffmpegPath o.probes with
    | none => recordEarlyRun (.err "FFmpeg not found" none (some ffmpegHint)) false []
    | some _ =>
      match resolveMonitorIndex p.monitor with
      | some mi =>
        match (getMonitorBoundsRun mi o.bounds).result with
        | none =>
          recordEarlyRun (.err "Failed to get monitor bounds" none (some boundsHint))
            true (getMonitorBoundsRun mi o.bounds).unlinkAttempts
        | some b =>
          recordCapture o duration (resolveFps p.fps) (some mi) (some b) true
            (getMonitorBoundsRun mi o.bounds).unlinkAttempts
      | none => recordCapture o duration (resolveFps p.fps) none none false []

/-- Effective capture index of the generated screenshot script
(index.ts lines 58-65): the requested index falls back to 0 when it is
at or beyond the number of enumerated screens. -/
def scriptEffectiveIndex (monitorIndex : ℚ) (screenCount : ℕ) : ℚ :=
  if monitorIndex ≥ (screenCount : ℚ) then 0 else monitorIndex

/-- Name of the list_monitors tool (index.ts line 148). -/
def listMonitorsToolName : String := "list_monitors"

/-- Name of the take_screenshot tool (index.ts line 208). -/
def takeScreenshotToolName : String := "take_screenshot"

/-- Name of the record_screen tool (video-tool.ts line 176). -/
def recordScreenToolName : String := "record_screen"

/-- Shallow embedding of the plugin register function (index.ts lines
13-25): on any platform other than win32 it logs a warning and registers
nothing; on win32 it registers exactly the three tools.  The first
component lists the registered tool names in registration order, the
second reports whether the Windows-only warning was logged. -/
def registerResult (platform : String) : List String × Bool :=
  if platform ≠ "win32" then ([], true)
  else ([listMonitorsToolName, takeScreenshotToolName, recordScreenToolName], false)

/-- Concrete configuration with every field absent, used by witnesses. -/
def sampleConfig : Config := ⟨none, none, none, none⟩

/-- Concrete probe oracle whose search-path probe succeeds, used by
witnesses. -/
def sampleProbeOracle : ProbeOracle := ⟨"C:\\Users\\u", none, some 0, []⟩

/-- Concrete probe oracle where every probe fails, used by witnesses. -/
def sampleProbeFailOracle : ProbeOracle := ⟨"C:\\Users\\u", none, none, []⟩

/-- Concrete bounds oracle with one enumerated monitor, used by
witnesses. -/
def sampleBoundsOracle : BoundsOracle :=
  ⟨"C:\\tmp\\bounds.ps1", true, true, "0|0|0|1920|1080", true⟩

/-- Concrete record oracle where every effect succeeds, used by
witnesses. -/
def sampleRecordOracle : RecordOracle :=
  ⟨sampleProbeOracle, sampleBoundsOracle, "C:\\tmp\\rec.mp4", some 1, some 5000,
   true, "read error", true, "save error", "C:\\media\\rec.mp4", 5000, "video/mp4"⟩

/-- Concrete screenshot oracle where every effect succeeds, used by
witnesses. -/
def sampleScreenshotOracle : ScreenshotOracle :=
  ⟨"C:\\tmp\\shot.png", "C:\\tmp\\shot.ps1", true, "write error", true, "exec error",
   true, "read error", true, "save error", "C:\\media\\shot.png", true, "image error"⟩

/-- Validation of the jsRound embedding: it is the Mathlib rounding
function, whose defining equation is the floor of the input plus one
half, exactly the specification of JavaScript Math.round. -/
theorem jsRound_eq_round (q : ℚ) : jsRound q = round q := by
  have hden : ((q.den : ℚ)) ≠ 0 := by
    exact_mod_cast q.den_nz
  have hnum : (q.num : ℚ) = q * (q.den : ℚ) := (div_eq_iff hden).mp (Rat.num_div_den q)
  have key : mkRat (2 * q.num + q.den) (2 * q.den) = q + 1 / 2 := by
    rw [Rat.mkRat_eq_div]
    push_cast
    field_simp
    linear_combination (4 : ℚ) * hnum
  rw [jsRound, key, round_eq, Rat.floor_def', ← Rat.floor_def]

/-- List.find? returns the entry at position k when that entry satisfies
the predicate and no earlier entry does. -/
theorem find_first_match {α : Type} (p : α → Bool) :
    ∀ (l : List α) (k : Nat) (a : α), l.get? k = some a → p a = true →
      (∀ j b, j < k → l.get? j = some b → p b = false) →
      l.find? p = some a := by
  intro l
  induction l with
  | nil => intro k a h _ _; simp at h
  | cons x xs ih =>
    intro k a hget hpa hprev
    cases k with
    | zero =>
      simp only [List.get?] at hget
      injection hget with hget
      subst hget
      simp [List.find?_cons, hpa]
    | succ k =>
      have hx : p x = false := hprev 0 x (Nat.succ_pos k) rfl
      simp only [List.find?_cons, hx]
      exact ih k a hget hpa (fun j b hj hg => hprev (j + 1) b (Nat.succ_lt_succ hj) hg)

/-- Extraction of the descriptor index: it is the parse of the first
field of the record line. -/
theorem parseMonitorLine_index (l : String) :
    (parseMonitorLine l).index = firstField l := rfl

/-- Capture-phase runs always allocate exactly the temp output path,
attempt its deletion exactly once, and mark the capture as started. -/
theorem recordCapture_shape (o : RecordOracle) (du fps : ℚ) (mi : Option ℚ)
    (mb : Option MonitorBounds) (blu : Bool) (ba : List String) :
    (recordCapture o du fps mi mb blu ba).allocatedTemps = [o.outputPath] ∧
    (recordCapture o du fps mi mb blu ba).unlinkAttempts = [o.outputPath] ∧
    (recordCapture o du fps mi mb blu ba).ranCapture = true := by
  unfold recordCapture recordFailRun
  rcases o.statResult with _ | size
  · exact ⟨rfl, rfl, rfl⟩
  · by_cases hs : size = 0
    · simp [hs]
    · by_cases hr : o.readOk <;> by_cases hv : o.saveOk <;> simp [hs, hr, hv]

/-- Capture-phase runs either succeed or fail with the screen-recording
error name. -/
theorem recordCapture_errorName (o : RecordOracle) (du fps : ℚ) (mi : Option ℚ)
    (mb : Option MonitorBounds) (blu : Bool) (ba : List String) :
    (recordCapture o du fps mi mb blu ba).result.errorName = none ∨
    (recordCapture o du fps mi mb blu ba).result.errorName = some "Screen recording failed" := by
  unfold recordCapture recordFailRun
  rcases o.statResult with _ | size
  · simp [RecordResult.errorName]
  · by_cases hs : size = 0
    · simp [hs, RecordResult.errorName]
    · by_cases hr : o.readOk <;> by_cases hv : o.saveOk <;>
        simp [hs, hr, hv, RecordResult.errorName]

/-- Duration resolution fails exactly on an absent or non-numeric
duration parameter. -/
theorem resolveDuration_none_iff (v : Option JsVal) (m : ℚ) :
    resolveDuration v m = none ↔ isNumParam v = false := by
  rcases v with _ | v
  · simp [resolveDuration, isNumParam]
  · rcases v with d | _ <;> simp [resolveDuration, isNumParam]

/-- Characterization of the duration-validation failure: record_screen
reports that duration is required exactly when the received duration is
absent or not a number. -/
theorem durationRequired_iff (cfg : Config) (p : RecordParams) (o : RecordOracle) :
    (recordExecute cfg p o).result.errorName = some "duration is required" ↔
      isNumParam p.duration = false := by
  rcases h : resolveDuration p.duration (cfg.maxVideoDuration.getD 60) with _ | dur
  · have hnum : isNumParam p.duration = false := (resolveDuration_none_iff _ _).mp h
    unfold recordExecute
    rw [h]
    simp [recordEarlyRun, RecordResult.errorName, hnum]
  · have hnum : isNumParam p.duration = true := by
      by_contra hx
      simp only [Bool.not_eq_true] at hx
      rw [(resolveDuration_none_iff _ _).mpr hx] at h
      cases h
    unfold recordExecute
    rw [h]
    simp only [hnum, iff_false, Bool.true_eq_false]
    rcases hf : findFfmpeg cfg.ffmpegPath o.probes with _ | f
    · simp [recordEarlyRun, RecordResult.errorName]
    · rcases hm : resolveMonitorIndex p.monitor with _ | mi
      · rcases recordCapture_errorName o dur (resolveFps p.fps) none none false [] with hc | hc <;>
          simp [hc]
      · rcases hb : (getMonitorBoundsRun mi o.bounds).result with _ | b
        · simp [hb, recordEarlyRun, RecordResult.errorName]
        · rcases recordCapture_errorName o dur (resolveFps p.fps) (some mi) (some b) true
              (getMonitorBoundsRun mi o.bounds).unlinkAttempts with hc | hc <;>
            simp [hb, hc]

/-- Claim C9: platform mismatch is handled at registration time: on any
platform other than win32 the register function returns after the
warning and registers none of the tools, so no per-call
platform-mismatch error path exists; on win32 it registers exactly
list_monitors, take_screenshot, and record_screen. -/
theorem registration_platform_gate :
    (∀ platform : String, platform ≠ "win32" → registerResult platform = ([], true)) ∧
    registerResult "win32" =
      (["list_monitors", "take_screenshot", "record_screen"], false) := by
  constructor
  · intro platform h
    simp [registerResult, h]
  · simp [registerResult, listMonitorsToolName, takeScreenshotToolName, recordScreenToolName]

/-- Witness for C9 at the concrete platforms linux and win32. -/
theorem registration_platform_gate_witness :
    registerResult "linux" = ([], true) ∧
    registerResult "win32" =
      (["list_monitors", "take_screenshot", "record_screen"], false) :=
  ⟨registration_platform_gate.1 "linux" (by decide), registration_platform_gate.2⟩

/-- Claim C10: record_screen accepts any numeric duration and fps and
rounds them to the nearest integer before clamping: a numeric duration d
resolves to the minimum of the maximum of its rounding and 1 with the
configured maximum (57/10 becomes 6), a numeric fps resolves to its
rounding clamped between 10 and 60, the rounding is the floor of the
input plus one half, and a non-integer numeric duration is never
rejected with the duration-is-required failure. -/
theorem numeric_rounding_then_clamping :
    (∀ d maxD : ℚ, resolveDuration (some (.num d)) maxD =
      some (min (max ((jsRound d : ℤ) : ℚ) 1) maxD)) ∧
    (∀ f : ℚ, resolveFps (some (.num f)) = min (max ((jsRound f : ℤ) : ℚ) 10) 60) ∧
    jsRound (mkRat 57 10) = 6 ∧
    (∀ q : ℚ, jsRound q = round q) ∧
    (∀ (cfg : Config) (p : RecordParams) (o : RecordOracle) (d : ℚ),
      p.duration = some (.num d) →
      (recordExecute cfg p o).result.errorName ≠ some "duration is required") := by
  refine ⟨fun d maxD => rfl, fun f => rfl, by decide, jsRound_eq_round, ?_⟩
  intro cfg p o d hd h
  have hx := (durationRequired_iff cfg p o).mp h
  rw [hd] at hx
  simp [isNumParam] at hx

/-- Witness for C10 at the non-integer duration 57/10 with the default
configuration: the effective duration is 6 and the invocation is not
rejected. -/
theorem numeric_rounding_then_clamping_witness :
    resolveDuration (some (.num (mkRat 57 10))) 60 = some 6 ∧
    (recordExecute sampleConfig ⟨some (.num (mkRat 57 10)), none, none⟩
      sampleRecordOracle).result.errorName ≠ some "duration is required" := by
  constructor
  · rw [numeric_rounding_then_clamping.1 (mkRat 57 10) 60]
    decide
  · exact numeric_rounding_then_clamping.2.2.2.2 sampleConfig
      ⟨some (.num (mkRat 57 10)), none, none⟩ sampleRecordOracle (mkRat 57 10) rfl

/-- Claim C5: out-of-range numeric parameters are clamped, never
rejected: a numeric delay resolves to its value clamped between 0 and
10, a numeric duration resolves into the interval from 1 to the
configured maximum whenever that interval is nonempty, a numeric fps
resolves into the interval from 10 to 60 and an absent fps defaults to
30, and record_screen rejects with the duration-is-required failure
exactly when the duration is absent or not a number. -/
theorem clamp_never_reject :
    (∀ d : ℚ, resolveDelay (some (.num d)) = min (max d 0) 10) ∧
    (∀ d : ℚ, 0 ≤ resolveDelay (some (.num d)) ∧ resolveDelay (some (.num d)) ≤ 10) ∧
    (∀ d maxD : ℚ, 1 ≤ maxD → ∀ eff : ℚ,
      resolveDuration (some (.num d)) maxD = some eff → 1 ≤ eff ∧ eff ≤ maxD) ∧
    (∀ f : ℚ, 10 ≤ resolveFps (some (.num f)) ∧ resolveFps (some (.num f)) ≤ 60) ∧
    resolveFps none = 30 ∧
    (∀ (cfg : Config) (p : RecordParams) (o : RecordOracle),
      (recordExecute cfg p o).result.errorName = some "duration is required" ↔
        isNumParam p.duration = false) := by
  refine ⟨fun d => rfl, ?_, ?_, ?_, rfl, durationRequired_iff⟩
  · intro d
    constructor
    · exact le_min (le_max_right d 0) (by norm_num)
    · exact min_le_right _ 10
  · intro d maxD hmax eff heff
    rw [resolveDuration] at heff
    injection heff with heff
    subst heff
    exact ⟨le_min (le_max_right _ 1) hmax, min_le_right _ maxD⟩
  · intro f
    constructor
    · exact le_min (le_max_right _ 10) (by norm_num)
    · exact min_le_right _ 60

/-- Witness for C5: duration 120 with ceiling 60 clamps to 60, and a
record_screen call without a duration is rejected as required. -/
theorem clamp_never_reject_witness :
    (1 ≤ (60 : ℚ) ∧ (60 : ℚ) ≤ 60) ∧
    (recordExecute sampleConfig ⟨none, none, none⟩ sampleRecordOracle).result.errorName =
      some "duration is required" := by
  constructor
  · exact clamp_never_reject.2.2.1 120 60 (by decide) 60 (by decide)
  · exact (clamp_never_reject.2.2.2.2.2 sampleConfig ⟨none, none, none⟩
      sampleRecordOracle).mpr (by decide)

/-- Claim C1 (counterexample): the descriptor index is not assigned
positionally: on a backend output whose single record echoes index 7,
the returned index is 7, not 0, so the indices are not 0 to N-1
independently of the echoed index field. -/
theorem positional_index_claim_false :
    ¬ ((parseMonitors "7|m|100|100|0|0|PRIMARY").map MonitorRecord.index =
      (List.range (parseMonitors "7|m|100|100|0|0|PRIMARY").length).map
        (fun i : ℕ => some (Int.ofNat i))) := by decide

/-- Claim C1 (amended): the descriptor index is parsed from the first
field of each record rather than assigned positionally; whenever the
records echo the positional indices 0 to N-1 — as the bundled
enumeration scripts emit them — the returned descriptors carry indices
exactly 0 to N-1 in emission order, and the bounds lookup for index k
selects the record at position k. -/
theorem monitor_indices_from_echoed_field (out : String)
    (h : (monitorLines out).map firstField =
      (List.range (monitorLines out).length).map (fun i : ℕ => some (Int.ofNat i))) :
    (parseMonitors out).map MonitorRecord.index =
      (List.range (parseMonitors out).length).map (fun i : ℕ => some (Int.ofNat i)) ∧
    ∀ (k : ℕ) (l : String), (monitorLines out).get? k = some l →
      getMonitorBoundsPure (k : ℚ) out = some (boundsFromLine l) := by
  have hf : ∀ (j : ℕ) (b : String), (monitorLines out).get? j = some b →
      firstField b = some (Int.ofNat j) := by
    intro j b hj
    have hjlen : j < (monitorLines out).length := by
      by_contra hx
      rw [List.get?_eq_none.mpr (Nat.le_of_not_lt hx)] at hj
      cases hj
    have hmap := congrArg (fun t => t.get? j) h
    simp only [List.get?_map, hj, Option.map_some, List.get?_range hjlen] at hmap
    injection hmap with hmap
  constructor
  · simp only [parseMonitors, List.map_map, List.length_map]
    have hcomp : (MonitorRecord.index ∘ parseMonitorLine) = firstField := by
      funext l
      exact parseMonitorLine_index l
    rw [hcomp, h]
  · intro k l hget
    have hpk : boundsIndexMatches (k : ℚ) l = true := by
      simp only [boundsIndexMatches, hf k l hget]
      simp
    have hprev : ∀ j b, j < k → (monitorLines out).get? j = some b →
        boundsIndexMatches (k : ℚ) b = false := by
      intro j b hj hgetj
      simp only [boundsIndexMatches, hf j b hgetj]
      simp only [decide_eq_false_iff_not]
      intro hx
      rw [Int.ofNat_eq_natCast] at hx
      have : j = k := by exact_mod_cast hx
      omega
    have hfind := find_first_match (boundsIndexMatches (k : ℚ)) (monitorLines out)
      k l hget hpk hprev
    simp [getMonitorBoundsPure, hfind]

/-- Witness for the amended C1 on a two-record output echoing positional
indices: the parsed indices are 0 and 1, and the bounds lookup for index
1 selects the second record. -/
theorem monitor_indices_from_echoed_field_witness :
    (parseMonitors "0|5|6|800|600\n1|7|8|1024|768").map MonitorRecord.index =
      (List.range (parseMonitors "0|5|6|800|600\n1|7|8|1024|768").length).map
        (fun i : ℕ => some (Int.ofNat i)) ∧
    getMonitorBoundsPure ((1 : ℕ) : ℚ) "0|5|6|800|600\n1|7|8|1024|768" =
      some (boundsFromLine "1|7|8|1024|768") :=
  ⟨(monitor_indices_from_echoed_field "0|5|6|800|600\n1|7|8|1024|768" (by decide)).1,
   (monitor_indices_from_echoed_field "0|5|6|800|600\n1|7|8|1024|768" (by decide)).2
     1 "1|7|8|1024|768" (by decide)⟩

/-- Claim C6 (counterexample): the monitor-bounds lookup does not always
return the bounds of the matching enumerated record: its success-path
temp-script deletion runs inside the guarded region, so when that
deletion throws the lookup returns null even though enumeration
succeeded and the requested index matches a record. -/
theorem bounds_lookup_claim_false :
    (getMonitorBoundsRun 1 ⟨"C:\\tmp\\b.ps1", true, true, "1|7|8|100|200", false⟩).result
        = none ∧
    getMonitorBoundsPure 1 "1|7|8|100|200" = some (boundsFromLine "1|7|8|100|200") := by
  decide

/-- Claim C6 (amended): provided the script write, the enumeration
subprocess and the success-path temp-script deletion all succeed, the
lookup returns the parsed outcome: the bounds of the first record whose
echoed index matches the request, else the first record as fallback,
else null when there is no record; a write or subprocess failure also
yields null; record_screen treats null bounds for a requested monitor as
the hard bounds error, and performs no bounds lookup when no monitor was
requested. -/
theorem bounds_lookup_behaviour :
    (∀ (mi : ℚ) (o : BoundsOracle), o.writeOk = true → o.execOk = true →
      o.unlinkOk = true →
      (getMonitorBoundsRun mi o).result = getMonitorBoundsPure mi o.output) ∧
    (∀ (mi : ℚ) (out : String) (k : ℕ) (l : String),
      (monitorLines out).get? k = some l → boundsIndexMatches mi l = true →
      (∀ j b, j < k → (monitorLines out).get? j = some b →
        boundsIndexMatches mi b = false) →
      getMonitorBoundsPure mi out = some (boundsFromLine l)) ∧
    (∀ (mi : ℚ) (out : String) (l0 : String) (rest : List String),
      monitorLines out = l0 :: rest →
      (monitorLines out).find? (boundsIndexMatches mi) = none →
      getMonitorBoundsPure mi out = some (boundsFromLine l0)) ∧
    (∀ (mi : ℚ) (out : String), monitorLines out = [] →
      getMonitorBoundsPure mi out = none) ∧
    (∀ (mi : ℚ) (o : BoundsOracle), o.writeOk = false ∨ o.execOk = false →
      (getMonitorBoundsRun mi o).result = none) ∧
    (∀ (cfg : Config) (p : RecordParams) (o : RecordOracle) (mi : ℚ),
      isNumParam p.duration = true → resolveMonitorIndex p.monitor = some mi →
      (findFfmpeg cfg.ffmpegPath o.probes).isSome = true →
      (getMonitorBoundsRun mi o.bounds).result = none →
      (recordExecute cfg p o).result =
        .err "Failed to get monitor bounds" none (some boundsHint)) ∧
    (∀ (cfg : Config) (p : RecordParams) (o : RecordOracle),
      resolveMonitorIndex p.monitor = none →
      (recordExecute cfg p o).boundsLookedUp = false ∧
      (recordExecute cfg p o).boundsAttempts = []) := by
  refine ⟨?_, ?_, ?_, ?_, ?_, ?_, ?_⟩
  · intro mi o hw he hu
    simp [getMonitorBoundsRun, hw, he, hu]
  · intro mi out k l hget hp hprev
    have hfind := find_first_match (boundsIndexMatches mi) (monitorLines out) k l hget hp hprev
    simp [getMonitorBoundsPure, hfind]
  · intro mi out l0 rest hcons hfind
    rw [hcons] at hfind
    simp [getMonitorBoundsPure, hcons, hfind]
  · intro mi out hnil
    simp [getMonitorBoundsPure, hnil]
  · intro mi o h
    rcases h with h | h <;> simp [getMonitorBoundsRun, h]
  · intro cfg p o mi hdur hm hff hb
    rcases hd : resolveDuration p.duration (cfg.maxVideoDuration.getD 60) with _ | dur
    · rw [(resolveDuration_none_iff _ _).mp hd] at hdur
      cases hdur
    · rcases hf : findFfmpeg cfg.ffmpegPath o.probes with _ | f
      · rw [hf] at hff
        cases hff
      · unfold recordExecute
        simp only [hd, hf, hm, hb, recordEarlyRun]
  · intro cfg p o hm
    unfold recordExecute
    rcases hd : resolveDuration p.duration (cfg.maxVideoDuration.getD 60) with _ | dur
    · simp [recordEarlyRun]
    · rcases hf : findFfmpeg cfg.ffmpegPath o.probes with _ | f
      · simp [recordEarlyRun]
      · rw [hm]
        have hs := recordCapture_shape o dur (resolveFps p.fps) none none false []
        refine ⟨?_, ?_⟩ <;> unfold recordCapture recordFailRun <;>
          rcases o.statResult with _ | size
        · rfl
        · by_cases hz : size = 0
          · simp [hz]
          · by_cases hr : o.readOk <;> by_cases hv : o.saveOk <;> simp [hz, hr, hv]
        · rfl
        · by_cases hz : size = 0
          · simp [hz]
          · by_cases hr : o.readOk <;> by_cases hv : o.saveOk <;> simp [hz, hr, hv]

/-- Witness for the amended C6 on concrete oracles: a successful lookup
with a matching second record, the first-record fallback, the hard
record_screen error on a failing lookup, and the lookup-free path. -/
theorem bounds_lookup_behaviour_witness :
    (getMonitorBoundsRun 1 sampleBoundsOracle).result =
      getMonitorBoundsPure 1 sampleBoundsOracle.output ∧
    getMonitorBoundsPure 5 "0|1|2|3|4\n1|5|6|7|8" =
      some (boundsFromLine "0|1|2|3|4") ∧
    (recordExecute sampleConfig ⟨some (.num 5), some (.num 0), none⟩
      { sampleRecordOracle with
          bounds := ⟨"C:\\tmp\\b.ps1", true, false, "", true⟩ }).result =
      .err "Failed to get monitor bounds" none (some boundsHint) ∧
    (recordExecute sampleConfig ⟨some (.num 5), none, none⟩
      sampleRecordOracle).boundsLookedUp = false := by
  refine ⟨bounds_lookup_behaviour.1 1 sampleBoundsOracle rfl rfl rfl, ?_, ?_, ?_⟩
  · exact bounds_lookup_behaviour.2.2.1 5 "0|1|2|3|4\n1|5|6|7|8" "0|1|2|3|4"
      ["1|5|6|7|8"] (by decide) (by decide)
  · exact bounds_lookup_behaviour.2.2.2.2.2.1 sampleConfig
      ⟨some (.num 5), some (.num 0), none⟩
      { sampleRecordOracle with bounds := ⟨"C:\\tmp\\b.ps1", true, false, "", true⟩ }
      0 (by decide) (by decide) (by decide) (by decide)
  · exact (bounds_lookup_behaviour.2.2.2.2.2.2 sampleConfig
      ⟨some (.num 5), none, none⟩ sampleRecordOracle (by decide)).1

/-- Claim C2 (counterexample): deletion is not attempted exactly once on
every exit: when every step of take_screenshot succeeds but the final
image-result construction throws, the success-path cleanup has already
attempted both deletions and the catch block attempts both again, so the
temp output path receives two deletion attempts. -/
theorem cleanup_exactly_once_claim_false :
    (screenshotExecute sampleConfig ⟨none, none⟩ "win32"
      { sampleScreenshotOracle with imageOk := false }).unlinkAttempts.count
        "C:\\tmp\\shot.png" = 2 ∧
    ¬ ((screenshotExecute sampleConfig ⟨none, none⟩ "win32"
      { sampleScreenshotOracle with imageOk := false }).unlinkAttempts.count
        "C:\\tmp\\shot.png" = 1) := by decide

/-- Claim C2 (amended): on every control-flow exit, deletion is
attempted at least once and at most twice for every temp path allocated
during the invocation, and exactly once except in two cases: when
take_screenshot fails while building the final image result after the
success-path cleanup, both temp paths receive a second attempt; and when
the bounds-lookup success-path deletion itself throws, its script
receives a second attempt from the catch block.  record_screen allocates
its temp output exactly when the capture phase is reached and then
attempts its deletion exactly once. -/
theorem cleanup_attempted_on_every_exit :
    (∀ o : ListMonOracle, (listMonitorsExecute o).unlinkAttempts = [o.scriptPath]) ∧
    (∀ (mi : ℚ) (o : BoundsOracle), (getMonitorBoundsRun mi o).unlinkAttempts =
      if o.writeOk && o.execOk && !o.unlinkOk then [o.scriptPath, o.scriptPath]
      else [o.scriptPath]) ∧
    (∀ (cfg : Config) (p : ScreenshotParams) (pf : String) (o : ScreenshotOracle),
      (screenshotExecute cfg p pf o).unlinkAttempts =
        if o.writeOk && o.execOk && o.readOk && o.saveOk && !o.imageOk
        then [o.outputPath, o.scriptPath, o.outputPath, o.scriptPath]
        else [o.outputPath, o.scriptPath]) ∧
    (∀ (cfg : Config) (p : RecordParams) (o : RecordOracle),
      (recordExecute cfg p o).unlinkAttempts = (recordExecute cfg p o).allocatedTemps ∧
      (recordExecute cfg p o).allocatedTemps =
        (if (recordExecute cfg p o).ranCapture then [o.outputPath] else [])) := by
  refine ⟨?_, ?_, ?_, ?_⟩
  · intro o
    cases hw : o.writeOk <;> cases he : o.execOk <;> simp [listMonitorsExecute, hw, he]
  · intro mi o
    cases hw : o.writeOk <;> cases he : o.execOk <;> cases hu : o.unlinkOk <;>
      simp [getMonitorBoundsRun, hw, he, hu]
  · intro cfg p pf o
    cases hw : o.writeOk <;> cases he : o.execOk <;> cases hr : o.readOk <;>
      cases hv : o.saveOk <;> cases hi : o.imageOk <;>
      simp [screenshotExecute, hw, he, hr, hv, hi]
  · intro cfg p o
    unfold recordExecute
    rcases hd : resolveDuration p.duration (cfg.maxVideoDuration.getD 60) with _ | dur
    · simp [recordEarlyRun]
    rcases hf : findFfmpeg cfg.ffmpegPath o.probes with _ | f
    · simp [recordEarlyRun]
    rcases hm : resolveMonitorIndex p.monitor with _ | mi
    · obtain ⟨h1, h2, h3⟩ := recordCapture_shape o dur (resolveFps p.fps) none none false []
      rw [h1, h2, h3]
      simp
    rcases hb : (getMonitorBoundsRun mi o.bounds).result with _ | b
    · simp [hb, recordEarlyRun]
    · simp only [hb]
      obtain ⟨h1, h2, h3⟩ := recordCapture_shape o dur (resolveFps p.fps) (some mi) (some b)
        true (getMonitorBoundsRun mi o.bounds).unlinkAttempts
      rw [h1, h2, h3]
      simp

/-- Claim C3: record_screen determines success purely by artifact
verification: a success payload exists only when the output file existed
with nonzero size at verification time and its path is the media-store
path; a missing file yields the structured failure whose details say no
output file was created; an empty file yields the structured failure
whose details say an empty file was produced; and the entire run is
independent of the exit status of the capture subprocess. -/
theorem success_by_artifact_verification :
    (∀ (cfg : Config) (p : RecordParams) (o : RecordOracle),
      (recordExecute cfg p o).result.isOk = true →
        (∃ n : ℕ, o.statResult = some n ∧ n ≠ 0) ∧
        (recordExecute cfg p o).result.okPath = some o.savedPath) ∧
    (∀ (cfg : Config) (p : RecordParams) (o : RecordOracle),
      (recordExecute cfg p o).ranCapture = true → o.statResult = none →
      (recordExecute cfg p o).result =
        .err "Screen recording failed" (some "Recording failed - no output file created")
          (some recordHint)) ∧
    (∀ (cfg : Config) (p : RecordParams) (o : RecordOracle),
      (recordExecute cfg p o).ranCapture = true → o.statResult = some 0 →
      (recordExecute cfg p o).result =
        .err "Screen recording failed" (some "Recording produced empty file")
          (some recordHint)) ∧
    (∀ (cfg : Config) (p : RecordParams) (o : RecordOracle) (e : Option Int),
      recordExecute cfg p { o with capExitStatus := e } = recordExecute cfg p o) := by
  have hcap : ∀ (o : RecordOracle) (du fps : ℚ) (mi : Option ℚ) (mb : Option MonitorBounds)
      (blu : Bool) (ba : List String),
      ((recordCapture o du fps mi mb blu ba).result.isOk = true →
        (∃ n : ℕ, o.statResult = some n ∧ n ≠ 0) ∧
        (recordCapture o du fps mi mb blu ba).result.okPath = some o.savedPath) ∧
      (o.statResult = none →
        (recordCapture o du fps mi mb blu ba).result =
          .err "Screen recording failed"
            (some "Recording failed - no output file created") (some recordHint)) ∧
      (o.statResult = some 0 →
        (recordCapture o du fps mi mb blu ba).result =
          .err "Screen recording failed" (some "Recording produced empty file")
            (some recordHint)) := by
    intro o du fps mi mb blu ba
    unfold recordCapture recordFailRun
    rcases hstat : o.statResult with _ | size
    · simp [RecordResult.isOk]
    · by_cases hz : size = 0
      · simp [hz, RecordResult.isOk]
      · by_cases hr : o.readOk <;> by_cases hv : o.saveOk <;>
          simp [hz, hr, hv, RecordResult.isOk, RecordResult.okPath]
  refine ⟨?_, ?_, ?_, ?_⟩
  · intro cfg p o
    unfold recordExecute
    rcases hd : resolveDuration p.duration (cfg.maxVideoDuration.getD 60) with _ | dur
    · simp [recordEarlyRun, RecordResult.isOk]
    rcases hf : findFfmpeg cfg.ffmpegPath o.probes with _ | f
    · simp [recordEarlyRun, RecordResult.isOk]
    rcases hm : resolveMonitorIndex p.monitor with _ | mi
    · exact (hcap o dur (resolveFps p.fps) none none false []).1
    rcases hb : (getMonitorBoundsRun mi o.bounds).result with _ | b
    · simp [hb, recordEarlyRun, RecordResult.isOk]
    · simp only [hb]
      exact (hcap o dur (resolveFps p.fps) (some mi) (some b) true
        (getMonitorBoundsRun mi o.bounds).unlinkAttempts).1
  · intro cfg p o
    unfold recordExecute
    rcases hd : resolveDuration p.duration (cfg.maxVideoDuration.getD 60) with _ | dur
    · simp [recordEarlyRun]
    rcases hf : findFfmpeg cfg.ffmpegPath o.probes with _ | f
    · simp [recordEarlyRun]
    rcases hm : resolveMonitorIndex p.monitor with _ | mi
    · intro _ hstat
      exact (hcap o dur (resolveFps p.fps) none none false []).2.1 hstat
    rcases hb : (getMonitorBoundsRun mi o.bounds).result with _ | b
    · simp [hb, recordEarlyRun]
    · simp only [hb]
      intro _ hstat
      exact (hcap o dur (resolveFps p.fps) (some mi) (some b) true
        (getMonitorBoundsRun mi o.bounds).unlinkAttempts).2.1 hstat
  · intro cfg p o
    unfold recordExecute
    rcases hd : resolveDuration p.duration (cfg.maxVideoDuration.getD 60) with _ | dur
    · simp [recordEarlyRun]
    rcases hf : findFfmpeg cfg.ffmpegPath o.probes with _ | f
    · simp [recordEarlyRun]
    rcases hm : resolveMonitorIndex p.monitor with _ | mi
    · intro _ hstat
      exact (hcap o dur (resolveFps p.fps) none none false []).2.2 hstat
    rcases hb : (getMonitorBoundsRun mi o.bounds).result with _ | b
    · simp [hb, recordEarlyRun]
    · simp only [hb]
      intro _ hstat
      exact (hcap o dur (resolveFps p.fps) (some mi) (some b) true
        (getMonitorBoundsRun mi o.bounds).unlinkAttempts).2.2 hstat
  · intro cfg p o e
    rfl

/-- Witness for C3 on concrete oracles: a fully successful run returns
the media-store path, a missing output file yields the no-file failure,
and an empty output file yields the empty-file failure. -/
theorem success_by_artifact_verification_witness :
    ((∃ n : ℕ, sampleRecordOracle.statResult = some n ∧ n ≠ 0) ∧
      (recordExecute sampleConfig ⟨some (.num 5), none, none⟩
        sampleRecordOracle).result.okPath = some sampleRecordOracle.savedPath) ∧
    (recordExecute sampleConfig ⟨some (.num 5), none, none⟩
      { sampleRecordOracle with statResult := none }).result =
      .err "Screen recording failed"
        (some "Recording failed - no output file created") (some recordHint) ∧
    (recordExecute sampleConfig ⟨some (.num 5), none, none⟩
      { sampleRecordOracle with statResult := some 0 }).result =
      .err "Screen recording failed" (some "Recording produced empty file")
        (some recordHint) := by
  refine ⟨success_by_artifact_verification.1 sampleConfig ⟨some (.num 5), none, none⟩
      sampleRecordOracle (by decide), ?_, ?_⟩
  · exact success_by_artifact_verification.2.1 sampleConfig ⟨some (.num 5), none, none⟩
      { sampleRecordOracle with statResult := none } (by decide) rfl
  · exact success_by_artifact_verification.2.2.1 sampleConfig ⟨some (.num 5), none, none⟩
      { sampleRecordOracle with statResult := some 0 } (by decide) rfl

/-- Claim C4: capture-binary resolution probes the candidates in strict
priority order — the configured path first, then the bare binary name
through the search path, then the fixed well-known locations — each
candidate accepted on a version-probe exit status of 0 with the first
success winning; and when resolution fails record_screen returns the
FFmpeg-not-found failure with the installation hint, allocates no temp
file, performs no bounds lookup and never starts a capture subprocess. -/
theorem ffmpeg_resolution_order :
    (∀ (c : Option String) (o : ProbeOracle),
      findFfmpeg c o =
        ((ffmpegCandidates c o).find? (fun x => decide (x.2 = some 0))).map Prod.fst) ∧
    (∀ (cfg : Config) (p : RecordParams) (o : RecordOracle),
      isNumParam p.duration = true →
      findFfmpeg cfg.ffmpegPath o.probes = none →
      (recordExecute cfg p o).result = .err "FFmpeg not found" none (some ffmpegHint) ∧
      (recordExecute cfg p o).allocatedTemps = [] ∧
      (recordExecute cfg p o).ranCapture = false ∧
      (recordExecute cfg p o).boundsLookedUp = false) := by
  have htail : ∀ l : List (String × Option Int),
      findFfmpegCommon l = (l.find? (fun x => decide (x.2 = some 0))).map Prod.fst := by
    intro l
    induction l with
    | nil => rfl
    | cons a t ih =>
      by_cases ha : a.2 = some 0 <;> simp [findFfmpegCommon, List.find?_cons, ha, ih]
  constructor
  · intro c o
    rcases c with _ | p
    · simp only [findFfmpeg, ffmpegCandidates, findFfmpegTail, List.nil_append,
        List.find?_cons]
      by_cases hp : o.pathStatus = some 0 <;> simp [hp, htail]
    · by_cases hp0 : p = ""
      · subst hp0
        simp only [findFfmpeg, ffmpegCandidates, findFfmpegTail, if_pos rfl,
          ne_eq, not_true_eq_false, false_and, if_false, List.nil_append, List.find?_cons]
        by_cases hp : o.pathStatus = some 0 <;> simp [hp, htail]
      · by_cases hc : o.configStatus = some 0
        · simp [findFfmpeg, ffmpegCandidates, hp0, hc, List.find?_cons]
        · simp only [findFfmpeg, ffmpegCandidates, findFfmpegTail, hp0, hc,
            ne_eq, and_false, if_false, if_neg hp0, List.cons_append, List.nil_append,
            List.find?_cons]
          simp only [decide_eq_true_eq, hc, decide_False]
          by_cases hp : o.pathStatus = some 0 <;> simp [hp, htail]
  · intro cfg p o hdur hnone
    rcases hd : resolveDuration p.duration (cfg.maxVideoDuration.getD 60) with _ | dur
    · rw [(resolveDuration_none_iff _ _).mp hd] at hdur
      cases hdur
    · unfold recordExecute
      simp [hd, hnone, recordEarlyRun]

/-- Witness for C4 on concrete probe outcomes: with a failing configured
probe and a succeeding search-path probe the bare name wins, and with
every probe failing record_screen returns the FFmpeg-not-found failure
with no temp allocation. -/
theorem ffmpeg_resolution_order_witness :
    findFfmpeg (some "C:\\x\\ffmpeg.exe") sampleProbeOracle =
      ((ffmpegCandidates (some "C:\\x\\ffmpeg.exe") sampleProbeOracle).find?
        (fun x => decide (x.2 = some 0))).map Prod.fst ∧
    (recordExecute sampleConfig ⟨some (.num 5), none, none⟩
      { sampleRecordOracle with probes := sampleProbeFailOracle }).result =
      .err "FFmpeg not found" none (some ffmpegHint) ∧
    (recordExecute sampleConfig ⟨some (.num 5), none, none⟩
      { sampleRecordOracle with probes := sampleProbeFailOracle }).allocatedTemps = [] := by
  refine ⟨ffmpeg_resolution_order.1 (some "C:\\x\\ffmpeg.exe") sampleProbeOracle, ?_, ?_⟩
  · exact (ffmpeg_resolution_order.2 sampleConfig ⟨some (.num 5), none, none⟩
      { sampleRecordOracle with probes := sampleProbeFailOracle } (by decide) (by decide)).1
  · exact (ffmpeg_resolution_order.2 sampleConfig ⟨some (.num 5), none, none⟩
      { sampleRecordOracle with probes := sampleProbeFailOracle } (by decide) (by decide)).2.1

/-- Claim C7: no temp artifact path is referenced in a returned result:
a take_screenshot image result carries the media-store path both as its
path and inside its details, a record_screen success payload carries the
media-store path, and whenever the media-store path differs from the
temp paths no returned success path equals a temp path. -/
theorem results_reference_sink_path :
    (∀ (cfg : Config) (p : ScreenshotParams) (pf : String) (o : ScreenshotOracle)
      (path : String) (m : ℚ) (f : String) (d : ℚ) (sp : String),
      (screenshotExecute cfg p pf o).result = .image path m f d sp →
      path = o.savedPath ∧ sp = o.savedPath) ∧
    (∀ (cfg : Config) (p : ScreenshotParams) (pf : String) (o : ScreenshotOracle),
      o.savedPath ≠ o.outputPath → o.savedPath ≠ o.scriptPath →
      (screenshotExecute cfg p pf o).result.imagePath ≠ some o.outputPath ∧
      (screenshotExecute cfg p pf o).result.imagePath ≠ some o.scriptPath) ∧
    (∀ (cfg : Config) (p : RecordParams) (o : RecordOracle) (path : String) (size : Nat)
      (ct : String) (du fps : ℚ) (mon : Option ℚ) (mb : Option MonitorBounds),
      (recordExecute cfg p o).result = .ok path size ct du fps mon mb →
      path = o.savedPath) ∧
    (∀ (cfg : Config) (p : RecordParams) (o : RecordOracle),
      o.savedPath ≠ o.outputPath →
      (recordExecute cfg p o).result.okPath ≠ some o.outputPath) := by
  have hshot : ∀ (cfg : Config) (p : ScreenshotParams) (pf : String) (o : ScreenshotOracle),
      (screenshotExecute cfg p pf o).result.imagePath = none ∨
      (screenshotExecute cfg p pf o).result.imagePath = some o.savedPath := by
    intro cfg p pf o
    cases hw : o.writeOk <;> cases he : o.execOk <;> cases hr : o.readOk <;>
      cases hv : o.saveOk <;> cases hi : o.imageOk <;>
      simp [screenshotExecute, hw, he, hr, hv, hi, ScreenshotResult.imagePath]
  have hrec : ∀ (cfg : Config) (p : RecordParams) (o : RecordOracle),
      (recordExecute cfg p o).result.okPath = none ∨
      (recordExecute cfg p o).result.okPath = some o.savedPath := by
    intro cfg p o
    have hcapture : ∀ (du fps : ℚ) (mi : Option ℚ) (mb : Option MonitorBounds)
        (blu : Bool) (ba : List String),
        (recordCapture o du fps mi mb blu ba).result.okPath = none ∨
        (recordCapture o du fps mi mb blu ba).result.okPath = some o.savedPath := by
      intro du fps mi mb blu ba
      unfold recordCapture recordFailRun
      rcases hstat : o.statResult with _ | size
      · simp [RecordResult.okPath]
      · by_cases hz : size = 0
        · simp [hz, RecordResult.okPath]
        · by_cases hr : o.readOk <;> by_cases hv : o.saveOk <;>
            simp [hz, hr, hv, RecordResult.okPath]
    unfold recordExecute
    rcases hd : resolveDuration p.duration (cfg.maxVideoDuration.getD 60) with _ | dur
    · simp [recordEarlyRun, RecordResult.okPath]
    rcases hf : findFfmpeg cfg.ffmpegPath o.probes with _ | f
    · simp [recordEarlyRun, RecordResult.okPath]
    rcases hm : resolveMonitorIndex p.monitor with _ | mi
    · exact hcapture dur (resolveFps p.fps) none none false []
    rcases hb : (getMonitorBoundsRun mi o.bounds).result with _ | b
    · simp [hb, recordEarlyRun, RecordResult.okPath]
    · simp only [hb]
      exact hcapture dur (resolveFps p.fps) (some mi) (some b) true
        (getMonitorBoundsRun mi o.bounds).unlinkAttempts
  refine ⟨?_, ?_, ?_, ?_⟩
  · intro cfg p pf o path m f d sp h
    simp only [screenshotExecute] at h
    cases hw : o.writeOk <;> cases he : o.execOk <;> cases hr : o.readOk <;>
      cases hv : o.saveOk <;> cases hi : o.imageOk <;> simp_all
    exact h.2.2.2.2.symm.trans h.1
  · intro cfg p pf o h1 h2
    rcases hshot cfg p pf o with hx | hx <;> rw [hx] <;> simp [h1, h2]
  · intro cfg p o path size ct du fps mon mb h
    rcases hrec cfg p o with hx | hx <;> rw [h] at hx <;>
      simp [RecordResult.okPath] at hx
    exact hx
  · intro cfg p o h1
    rcases hrec cfg p o with hx | hx <;> rw [hx] <;> simp [h1]

/-- Witness for C7 on the all-success oracles: the returned screenshot
path and details path and the returned recording path are the
media-store paths and differ from the temp paths. -/
theorem results_reference_sink_path_witness :
    ("C:\\media\\shot.png" = sampleScreenshotOracle.savedPath ∧
      "C:\\media\\shot.png" = sampleScreenshotOracle.savedPath) ∧
    (screenshotExecute sampleConfig ⟨none, none⟩ "win32"
      sampleScreenshotOracle).result.imagePath ≠ some "C:\\tmp\\shot.png" ∧
    (recordExecute sampleConfig ⟨some (.num 5), none, none⟩
      sampleRecordOracle).result.okPath ≠ some "C:\\tmp\\rec.mp4" := by
  refine ⟨?_, ?_, ?_⟩
  · exact results_reference_sink_path.1 sampleConfig ⟨none, none⟩ "win32"
      sampleScreenshotOracle "C:\\media\\shot.png" 0 "png" 0 "C:\\media\\shot.png"
      (by decide)
  · exact (results_reference_sink_path.2.1 sampleConfig ⟨none, none⟩ "win32"
      sampleScreenshotOracle (by decide) (by decide)).1
  · exact results_reference_sink_path.2.2.2 sampleConfig ⟨some (.num 5), none, none⟩
      sampleRecordOracle (by decide)

/-- Claim C8: take_screenshot resolves the effective monitor index as
the caller value when numeric, else the configured default, else 0; any
image result echoes that resolved request value independently of the
enumerated screen count; and the generated capture script falls back to
screen 0 exactly when the requested index is at or beyond the screen
count, keeping the requested index otherwise. -/
theorem monitor_resolution_echo :
    (∀ (m : ℚ) (cfg : Config), resolveMonitor (some (.num m)) cfg = m) ∧
    (∀ (cfg : Config) (dm : ℚ), cfg.defaultMonitor = some dm →
      resolveMonitor none cfg = dm) ∧
    (∀ cfg : Config, cfg.defaultMonitor = none → resolveMonitor none cfg = 0) ∧
    (∀ (cfg : Config) (p : ScreenshotParams) (pf : String) (o : ScreenshotOracle),
      (screenshotExecute cfg p pf o).result.imageMonitor = none ∨
      (screenshotExecute cfg p pf o).result.imageMonitor =
        some (resolveMonitor p.monitor cfg)) ∧
    (∀ (mi : ℚ) (n : ℕ), (n : ℚ) ≤ mi → scriptEffectiveIndex mi n = 0) ∧
    (∀ (mi : ℚ) (n : ℕ), mi < (n : ℚ) → scriptEffectiveIndex mi n = mi) := by
  refine ⟨fun m cfg => rfl, ?_, ?_, ?_, ?_, ?_⟩
  · intro cfg dm h
    simp [resolveMonitor, h]
  · intro cfg h
    simp [resolveMonitor, h]
  · intro cfg p pf o
    cases hw : o.writeOk <;> cases he : o.execOk <;> cases hr : o.readOk <;>
      cases hv : o.saveOk <;> cases hi : o.imageOk <;>
      simp [screenshotExecute, hw, he, hr, hv, hi, ScreenshotResult.imageMonitor]
  · intro mi n h
    simp [scriptEffectiveIndex, h]
  · intro mi n h
    simp [scriptEffectiveIndex, not_le.mpr h]

/-- Witness for C8: requesting monitor 5 resolves to 5 and is echoed by
the image result while the generated script for a two-screen system
captures screen 0; an absent request resolves to the configured default
2. -/
theorem monitor_resolution_echo_witness :
    resolveMonitor (some (.num 5)) sampleConfig = 5 ∧
    resolveMonitor none ⟨none, some 2, none, none⟩ = 2 ∧
    ((screenshotExecute sampleConfig ⟨none, some (.num 5)⟩ "win32"
        sampleScreenshotOracle).result.imageMonitor = none ∨
      (screenshotExecute sampleConfig ⟨none, some (.num 5)⟩ "win32"
        sampleScreenshotOracle).result.imageMonitor =
        some (resolveMonitor (some (.num 5)) sampleConfig)) ∧
    scriptEffectiveIndex 5 2 = 0 := by
  refine ⟨monitor_resolution_echo.1 5 sampleConfig, ?_, ?_, ?_⟩
  · exact monitor_resolution_echo.2.1 ⟨none, some 2, none, none⟩ 2 rfl
  · exact monitor_resolution_echo.2.2.2.1 sampleConfig ⟨none, some (.num 5)⟩ "win32"
      sampleScreenshotOracle
  · exact monitor_resolution_echo.2.2.2.2.1 5 2 (by decide)

end ScreenCapture
